import Mathlib

/-!
# Verification of the secretary ODT template renderer (`renders.py`)

A shallow embedding of the renderer's core: the `xml.dom.minidom` tree
fragment it manipulates, the field-to-template rewrite
(`BaseRender.prepare_document`), the upward ancestor walk
(`BaseRender.get_parent_of`), the silently-undefined value policy
(`UndefinedSilently`), the `pad` filter (`pad_string`) and the archive
round-trip (`render_template`).

Modelling conventions, taken from the Python semantics of the source:

* A DOM node carries a numeric identifier `nid` standing for Python object
  identity; the theorems below only ever use trees whose identifiers are
  distinct, matching the fact that two distinct live minidom nodes are
  never the same object.
* In minidom every node class has a `parentNode` attribute (class default
  `None`), so `hasattr(node, 'parentNode')` is always true; walking past a
  tree root dereferences `None` and raises `AttributeError`.  Errors are
  modelled with `Except PyErr`.
* `removeChild` detaches a subtree and sets its root's `parentNode` to
  `None`; detached subtrees are kept in the state because the source's
  snapshot loop may keep mutating them.
-/

namespace Secretary

/-- Python exceptions that the embedded code can raise. -/
inductive PyErr where
  | attributeError
  | typeError
deriving DecidableEq, Repr

/-! ## The minidom tree fragment -/

/-- An XML node: an element with qualified tag, attribute list and ordered
children, or a text node holding character data.  `nid` models object
identity. -/
inductive Node where
  | element (nid : Nat) (tag : String) (attrs : List (String × String)) (children : List Node)
  | text (nid : Nat) (data : String)

/-- The node's identity. -/
def Node.nid : Node → Nat
  | .element j _ _ _ => j
  | .text j _ => j

/-- minidom `nodeName`: the tag for elements, `#text` for text nodes; a
document node is modelled as an element with tag `#document`, minidom's
`nodeName` for `Document`. -/
def Node.nodeName : Node → String
  | .element _ tag _ _ => tag
  | .text _ _ => "#text"

/-- minidom `Element.getAttribute`: the attribute's value, or the empty
string when the attribute is absent. -/
def getAttribute (attrs : List (String × String)) (name : String) : String :=
  match attrs.lookup name with
  | some v => v
  | none => ""

/-- Whether the node is an element with the given tag (exact match, as in
minidom's `_get_elements_by_tagName_helper`; the `*` wildcard is never
used by the source). -/
def Node.isElementNamed (name : String) : Node → Bool
  | .element _ tag _ _ => tag == name
  | .text _ _ => false

mutual
/-- minidom `getElementsByTagName`: all proper descendants with the given
tag, in document (preorder) order. -/
def getEltsNode (name : String) : Node → List Node
  | .element _ _ _ children => getEltsList name children
  | .text _ _ => []

def getEltsList (name : String) : List Node → List Node
  | [] => []
  | c :: rest =>
      (if c.isElementNamed name then [c] else []) ++ getEltsNode name c
        ++ getEltsList name rest
end

mutual
/-- Find the node with the given identity inside a tree (preorder). -/
def findByIdNode (i : Nat) : Node → Option Node
  | .element j t a cs => if j == i then some (.element j t a cs) else findByIdList i cs
  | .text j d => if j == i then some (.text j d) else none

/-- Find the node with the given identity in a list of sibling subtrees. -/
def findByIdList (i : Nat) : List Node → Option Node
  | [] => none
  | c :: rest =>
      match findByIdNode i c with
      | some n => some n
      | none => findByIdList i rest
end

mutual
/-- The chain of `parentNode` links of the node with identity `i`, nearest
parent first, ending with the tree's root; past the root the chain ends,
modelling `parentNode = None` there.  `none` when `i` is not in the tree. -/
def ancestorsNode (i : Nat) : Node → Option (List Node)
  | .element j t a cs =>
      if j == i then some []
      else (ancestorsList i cs).map (fun l => l ++ [.element j t a cs])
  | .text j _ => if j == i then some [] else none

/-- `ancestorsNode` over a list of sibling subtrees. -/
def ancestorsList (i : Nat) : List Node → Option (List Node)
  | [] => none
  | c :: rest =>
      match ancestorsNode i c with
      | some l => some l
      | none => ancestorsList i rest
end

mutual
/-- Greatest identity occurring in a tree, for generating fresh ones. -/
def Node.maxId : Node → Nat
  | .element j _ _ cs => max j (maxIdList cs)
  | .text j _ => j

/-- `Node.maxId` over a list of sibling subtrees. -/
def maxIdList : List Node → Nat
  | [] => 0
  | c :: rest => max c.maxId (maxIdList rest)
end

mutual
/-- Whether a tree contains an element with the given tag (the tree's own
root included). -/
def containsTagNode (name : String) : Node → Bool
  | .element _ tag _ cs => tag == name || containsTagList name cs
  | .text _ _ => false

/-- `containsTagNode` over a list of sibling subtrees. -/
def containsTagList (name : String) : List Node → Bool
  | [] => false
  | c :: rest => containsTagNode name c || containsTagList name rest
end

mutual
/-- `parent.insertBefore(new, target); parent.removeChild(target)` for the
node with identity `i` strictly below the given root: the new node takes
the target's position in its parent's child list.  Returns the updated
tree together with the removed (now detached) subtree. -/
def replaceInNode (i : Nat) (new : Node) : Node → Option (Node × Node)
  | .element j t a cs =>
      (replaceInList i new cs).map (fun p => (.element j t a p.1, p.2))
  | .text _ _ => none

/-- `replaceInNode` over a list of sibling subtrees. -/
def replaceInList (i : Nat) (new : Node) : List Node → Option (List Node × Node)
  | [] => none
  | c :: rest =>
      if c.nid == i then some (new :: rest, c)
      else
        match replaceInNode i new c with
        | some p => some (p.1 :: rest, p.2)
        | none => (replaceInList i new rest).map (fun p => (c :: p.1, p.2))
end

/-! ## Placeholder detection: `re.findall` of the brace pattern

The source tests `re.findall(r'(\{.*?\}*})', field_content)` for emptiness.
A match of that pattern exists exactly when some `{` is followed, with no
intervening newline (`.` does not match `\n`), by some later `}`.  The scan
below carries a flag: an unclosed `{` has been seen since the last newline. -/

/-- Scan for a `{` ... `}` pair with no newline in between; the flag records
whether a `{` has been seen since the last newline. -/
def has_jinja_tag_aux : Bool → List Char → Bool
  | _, [] => false
  | openSeen, c :: rest =>
      if c = '\n' then has_jinja_tag_aux false rest
      else if c = '}' && openSeen then true
      else if c = '{' then has_jinja_tag_aux true rest
      else has_jinja_tag_aux openSeen rest

/-- Whether `re.findall(r'(\{.*?\}*})', s)` is non-empty. -/
def has_jinja_tag (s : String) : Bool :=
  has_jinja_tag_aux false s.toList

/-! ## `BaseRender.get_parent_of`

The source walks `node.parentNode` upward.  `hasattr(node, 'parentNode')` is
always true in minidom (the attribute is a class default), so the `return
None` branch is unreachable: when the walk runs past a tree root it reads
`None.nodeName` and raises `AttributeError`.  The walk is embedded as a
function of the node's parent chain (nearest parent first, ending at the
tree root); the empty chain is the `parentNode is None` point. -/

/-- Python 2 `str.lower` for the ASCII tag names the source compares:
lowercase every character. -/
def strLower (s : String) : String :=
  ⟨s.toList.map Char.toLower⟩

/-- `BaseRender.get_parent_of`, as a function of the node's parent chain:
return the first link whose lowercased `nodeName` equals `parent_type`
(the source lowercases only the node name, not `parent_type`); running
past the root raises `AttributeError` (`None.nodeName`). -/
def get_parent_of : List Node → String → Except PyErr Node
  | [], _ => .error .attributeError
  | p :: rest, parent_type =>
      if strLower p.nodeName == parent_type then .ok p
      else get_parent_of rest parent_type

/-! ## `BaseRender.prepare_document`

State of one rewrite: the document tree (rooted at the `#document` node)
plus the subtrees detached so far by `removeChild`, in removal order, and a
counter for fresh node identities. -/

/-- The mutable state of one `prepare_document` run. -/
structure DocState where
  doc : Node
  detached : List Node
  nextId : Nat

/-- The forest a node can live in: the document first, then the detached
subtrees. -/
def DocState.forest (st : DocState) : List Node :=
  st.doc :: st.detached

/-- Find a node by identity anywhere in the forest (a removed node is still
a live object inside its detached subtree). -/
def findForest (st : DocState) (i : Nat) : Option Node :=
  findByIdList i st.forest

/-- The parent chain of the node with identity `i` within whichever tree of
the forest holds it. -/
def ancestorsForest (st : DocState) (i : Nat) : Option (List Node) :=
  ancestorsList i st.forest

/-- Replace the node with identity `i` by `new` in the first tree of the
forest that holds it.  A tree root has `parentNode = None`, so replacing it
raises `AttributeError` (`None.insertBefore`). -/
def replaceForest (i : Nat) (new : Node) : List Node → Except PyErr (Option (List Node × Node))
  | [] => .ok none
  | t :: rest =>
      if t.nid == i then .error .attributeError
      else
        match replaceInNode i new t with
        | some p => .ok (some (p.1 :: rest, p.2))
        | none =>
            (replaceForest i new rest).map
              (Option.map (fun p => (t :: p.1, p.2)))

/-- `parent = target.parentNode; parent.insertBefore(new, target);
parent.removeChild(target)` on the state; the removed subtree is appended
to the detached list.  The not-found branch is unreachable: a snapshot node
always stays somewhere in the forest. -/
def replaceNodeState (st : DocState) (i : Nat) (new : Node) : Except PyErr DocState :=
  match replaceForest i new st.forest with
  | .error e => .error e
  | .ok none => .ok st
  | .ok (some (trees, removed)) =>
      match trees with
      | d :: ds => .ok ⟨d, ds ++ [removed], st.nextId⟩
      | [] => .ok st

/-- `BaseRender.create_text_node`. -/
def create_text_node (nid : Nat) (data : String) : Node :=
  .text nid data

/-- `BaseRender.create_text_span_node`: a `text:span` element whose sole
child is a text node holding the content. -/
def create_text_span_node (nid : Nat) (content : String) : Node :=
  .element nid "text:span" [] [create_text_node (nid + 1) content]

/-- `BaseRender.__init__`'s body lookup: the first `office:body` element of
the document, else the first `office:master-styles` element; `none` models
the falsy empty list (on which the subsequent `getElementsByTagName` call
of `prepare_document` raises `AttributeError`). -/
def content_body (doc : Node) : Option Node :=
  match getEltsNode "office:body" doc with
  | b :: _ => some b
  | [] =>
      match getEltsNode "office:master-styles" doc with
      | b :: _ => some b
      | [] => none

/-- Allocate `k` fresh node identities. -/
def DocState.bump (st : DocState) (k : Nat) : DocState :=
  ⟨st.doc, st.detached, st.nextId + k⟩

/-- One iteration of `prepare_document`'s `for field in fields` loop, for
the snapshot node with identity `fid`.  Mirrors the source line by line:

* `field.hasChildNodes()` false: skip;
* `field.childNodes[0].data`: `AttributeError` when the first child is an
  element (minidom elements have no `data`);
* `if not jinja_tags: continue`;
* empty `text:description`: replace the field by a `text:span` wrapping its
  text (`create_text_span_node`);
* a recognized structural description: `field = get_parent_of(...)` first
  (which may raise), then replace that ancestor by a bare text node;
* any other non-empty description: replace the field itself by a bare text
  node. -/
def process_field (st : DocState) (fid : Nat) : Except PyErr DocState :=
  match findForest st fid with
  | none => .ok st
  | some (.text _ _) => .ok st
  | some (.element _ _ attrs children) =>
      match children with
      | [] => .ok st
      | .element _ _ _ _ :: _ => .error .attributeError
      | .text _ field_content :: _ =>
          if !(has_jinja_tag field_content) then .ok st
          else
            let field_description := getAttribute attrs "text:description"
            if field_description == "" then
              replaceNodeState (st.bump 2) fid
                (create_text_span_node st.nextId field_content)
            else
              if field_description ∈ ["text:p", "table:table-row", "table:table-cell"] then
                match ancestorsForest st fid with
                | none => .ok st
                | some chain =>
                    match get_parent_of chain field_description with
                    | .error e => .error e
                    | .ok target =>
                        replaceNodeState (st.bump 1) target.nid
                          (create_text_node st.nextId field_content)
              else
                replaceNodeState (st.bump 1) fid
                  (create_text_node st.nextId field_content)

/-- The `for field in fields` loop over the snapshot of field identities;
an uncaught exception aborts the whole loop. -/
def foldProcess : DocState → List Nat → Except PyErr DocState
  | st, [] => .ok st
  | st, fid :: rest =>
      match process_field st fid with
      | .error e => .error e
      | .ok st2 => foldProcess st2 rest

/-- `BaseRender.prepare_document` on a document tree (rooted at the
`#document` node): snapshot every `text:text-input` descendant of the
content body in document order, then run the loop; the resulting document
tree is returned (detached subtrees are garbage). -/
def prepare_document (doc : Node) : Except PyErr Node :=
  match content_body doc with
  | none => .error .attributeError
  | some body =>
      let fields := (getEltsNode "text:text-input" body).map Node.nid
      match foldProcess ⟨doc, [], doc.maxId + 1⟩ fields with
      | .error e => .error e
      | .ok st => .ok st.doc

/-! ## `UndefinedSilently` and the engine's variable lookup

The source subclasses jinja2's `Undefined` so that string conversion yields
`u''` and both calling and attribute access yield a fresh
`UndefinedSilently`.  Values reaching the engine are modelled by `PyValue`;
operations on defined values other than strings and ints are outside the
claims and collapse to the exceptions Python would raise. -/

/-- A Python value as seen by the template engine. -/
inductive PyValue where
  | str (s : String)
  | int (n : Int)
  | undefinedSilently
deriving DecidableEq, Repr

/-- `silently_undefined`: accepts anything, returns the empty string; bound
to `__unicode__` and `__str__` of `UndefinedSilently`. -/
def silently_undefined : PyValue → String :=
  fun _ => ""

/-- `return_new`: accepts anything, returns a fresh `UndefinedSilently`;
bound to `__call__` and `__getattr__`. -/
def return_new : PyValue → PyValue :=
  fun _ => .undefinedSilently

/-- Python `str(v)` for the modelled values; on `UndefinedSilently` this is
the overridden `__str__`, i.e. `silently_undefined`. -/
def pyStr : PyValue → String
  | .str s => s
  | .int n => toString n
  | .undefinedSilently => silently_undefined .undefinedSilently

/-- One chained operation a template expression can apply to a value. -/
inductive ChainOp where
  | call
  | getattr (name : String)
deriving DecidableEq, Repr

/-- Apply one chained operation.  On `UndefinedSilently` both operations are
the overridden `return_new`; on strings and ints, calling raises
`TypeError` and attribute access is out of the claims' scope and modelled
as `AttributeError`. -/
def applyOp : PyValue → ChainOp → Except PyErr PyValue
  | .undefinedSilently, .call => .ok (return_new .undefinedSilently)
  | .undefinedSilently, .getattr _ => .ok (return_new .undefinedSilently)
  | .str _, .call => .error .typeError
  | .str _, .getattr _ => .error .attributeError
  | .int _, .call => .error .typeError
  | .int _, .getattr _ => .error .attributeError

/-- A whole chain of calls and attribute accesses, applied left to right. -/
def applyChain (v : PyValue) : List ChainOp → Except PyErr PyValue
  | [] => .ok v
  | op :: rest =>
      match applyOp v op with
      | .error e => .error e
      | .ok v2 => applyChain v2 rest

/-- A parsed fragment of template text: literal text or `{{ name }}`. -/
inductive TemplatePart where
  | lit (s : String)
  | var (name : String)
deriving DecidableEq, Repr

/-- Modelled from the spec: variable lookup of the external template engine
(the spec's §1 places the expression evaluator itself out of scope of the
source).  `render_with_engine` constructs the engine with
`undefined=UndefinedSilently`, so a name absent from the bindings resolves
to an `UndefinedSilently` value. -/
def lookupVar (bindings : List (String × PyValue)) (name : String) : PyValue :=
  match bindings.lookup name with
  | some v => v
  | none => .undefinedSilently

/-- Modelled from the spec: the external engine's interpolation of a parsed
template — literals are copied, each `{{ name }}` is replaced by the
string form of the looked-up value (empty for a missing name, via
`UndefinedSilently.__str__`). -/
def renderParts (bindings : List (String × PyValue)) : List TemplatePart → String
  | [] => ""
  | .lit s :: rest => s ++ renderParts bindings rest
  | .var n :: rest => pyStr (lookupVar bindings n) ++ renderParts bindings rest

/-! ## The `pad` filter -/

/-- Python `str.zfill`: left-fill with `'0'` to the given width, never
truncating; a leading `'+'`/`'-'` stays at the front, the zeros go after
it (CPython moves the sign back to position 0 after padding). -/
def zfill (s : String) (width : Nat) : String :=
  match s.toList with
  | [] => ⟨List.replicate width '0'⟩
  | c :: rest =>
      if c = '+' ∨ c = '-' then ⟨c :: (List.replicate (width - s.length) '0' ++ rest)⟩
      else ⟨List.replicate (width - s.length) '0' ++ (c :: rest)⟩

/-- `pad_string(value, length=5)`: `str(value).zfill(length)`.  The Python
default `length` is 5; callers here pass it explicitly. -/
def pad_string (value : PyValue) (length : Nat) : String :=
  zfill (pyStr value) length

/-! ## `render_template`: the archive round-trip -/

/-- How a ZIP entry is stored. -/
inductive CompressType where
  | stored
  | deflated
deriving DecidableEq, Repr

/-- One archive entry: name, raw bytes (as an opaque string) and storage
mode. -/
structure ZipEntry where
  filename : String
  bytes : String
  compress : CompressType
deriving DecidableEq, Repr

/-- `ZipFile.read(name)`: `zipfile` resolves a name through `NameToInfo`,
where the last entry with a given name wins.  The empty-string default is
unreachable when `name` is taken from the entry list itself. -/
def zipRead (entries : List ZipEntry) (name : String) : String :=
  match (entries.filter (fun e => e.filename == name)).getLast? with
  | some e => e.bytes
  | none => ""

/-- `render_template(template, **kwargs)` over the abstract archive.
`renderPart` stands for `BaseRender(out, kwargs).render().encode(...)` on
the two content parts.  `py27` selects the `sys.version_info >= (2, 7)`
branch, which passes `zipfile.ZIP_DEFLATED` to every `writestr` call; the
older branch omits the argument, defaulting to stored.  The
`elif zi.filename == 'mimetype'` branch of the source only saves the bytes
into a local variable that is never read again, so it has no effect on the
output. -/
def render_template (py27 : Bool) (renderPart : String → String)
    (entries : List ZipEntry) : List ZipEntry :=
  entries.map (fun zi =>
    let out := zipRead entries zi.filename
    let out :=
      if zi.filename == "content.xml" || zi.filename == "styles.xml" then
        renderPart out
      else out
    ⟨zi.filename, out, if py27 then .deflated else .stored⟩)

/-! ## Test fixtures

Parametric ODT document trees (rooted at the `#document` node, with the
standard `office:document-content` / `office:body` spine) and concrete
inputs used by the theorems below.  Node identities are the literal
numbers; each fixture uses distinct ones. -/

/-- A body with one `text:text-input` field carrying no scope attribute,
with literal text `s`, between two text siblings `a` and `b`. -/
def docDefaultScope (s a b : String) : Node :=
  .element 0 "#document" [] [
    .element 1 "office:document-content" [] [
      .element 2 "office:body" [] [
        .element 3 "office:text" [] [
          .element 4 "text:p" [] [
            .text 5 a,
            .element 6 "text:text-input" [] [.text 7 s],
            .text 8 b ] ] ] ] ]

/-- `docDefaultScope` after the rewrite: the field is gone and a
`text:span` wrapping a text node with the field's literal text sits at its
former position (fresh identities 9 and 10). -/
def resDefaultScope (s a b : String) : Node :=
  .element 0 "#document" [] [
    .element 1 "office:document-content" [] [
      .element 2 "office:body" [] [
        .element 3 "office:text" [] [
          .element 4 "text:p" [] [
            .text 5 a,
            .element 9 "text:span" [] [.text 10 s],
            .text 8 b ] ] ] ] ]

/-- Like `docDefaultScope`, but the field's `text:description` attribute
holds `d`. -/
def docDescribedScope (d s : String) : Node :=
  .element 0 "#document" [] [
    .element 1 "office:document-content" [] [
      .element 2 "office:body" [] [
        .element 3 "office:text" [] [
          .element 4 "text:p" [] [
            .text 5 "A",
            .element 6 "text:text-input" [("text:description", d)] [.text 7 s],
            .text 8 "B" ] ] ] ] ]

/-- `docDescribedScope` after the rewrite when the description is non-empty
but not one of the three recognized values: a bare text node (fresh
identity 9), not a span, replaces the field in place. -/
def resDescribedScope (s : String) : Node :=
  .element 0 "#document" [] [
    .element 1 "office:document-content" [] [
      .element 2 "office:body" [] [
        .element 3 "office:text" [] [
          .element 4 "text:p" [] [
            .text 5 "A",
            .text 9 s,
            .text 8 "B" ] ] ] ] ]

/-- A paragraph-scoped field (`text:description` = `text:p`) inside a
paragraph `P` (identity 5) that also holds a text child `a` and a span
child; the paragraph sits between the text siblings `u` and `v`. -/
def docParagraphScope (s u v a c : String) : Node :=
  .element 0 "#document" [] [
    .element 1 "office:document-content" [] [
      .element 2 "office:body" [] [
        .element 3 "office:text" [] [
          .text 4 u,
          .element 5 "text:p" [("text:style-name", "P1")] [
            .text 6 a,
            .element 7 "text:text-input" [("text:description", "text:p")] [.text 8 s],
            .element 9 "text:span" [] [.text 10 c] ],
          .text 11 v ] ] ] ]

/-- `docParagraphScope` after the rewrite: the whole paragraph `P` is gone
— its text child `a` and its span child included — and a bare text node
(fresh identity 12) with the field's literal text sits at `P`'s former
position. -/
def resParagraphScope (s u v : String) : Node :=
  .element 0 "#document" [] [
    .element 1 "office:document-content" [] [
      .element 2 "office:body" [] [
        .element 3 "office:text" [] [
          .text 4 u,
          .text 12 s,
          .text 11 v ] ] ] ]

/-- A row-scoped field (`text:description` = `table:table-row`) with no
table row anywhere above it, followed by a second, default-scoped field
that a completed scan would also rewrite. -/
def docRowScopeNoRow : Node :=
  .element 0 "#document" [] [
    .element 1 "office:document-content" [] [
      .element 2 "office:body" [] [
        .element 3 "office:text" [] [
          .element 4 "text:p" [] [
            .element 5 "text:text-input" [("text:description", "table:table-row")]
              [.text 6 "\x7b\x7b x \x7d\x7d"] ],
          .element 7 "text:p" [] [
            .element 8 "text:text-input" [] [.text 9 "\x7b\x7b y \x7d\x7d"] ] ] ] ] ]

/-- A field whose first child is a text node with data `d1` and whose
second child is another text node with data `d2`. -/
def docTwoChildren (d1 d2 : String) : Node :=
  .element 0 "#document" [] [
    .element 1 "office:document-content" [] [
      .element 2 "office:body" [] [
        .element 3 "office:text" [] [
          .element 4 "text:p" [] [
            .element 5 "text:text-input" [] [.text 6 d1, .text 7 d2] ] ] ] ] ]

/-- `docTwoChildren` after the rewrite: the span (fresh identities 8 and 9)
holds only the first child's data. -/
def resTwoChildren (d1 : String) : Node :=
  .element 0 "#document" [] [
    .element 1 "office:document-content" [] [
      .element 2 "office:body" [] [
        .element 3 "office:text" [] [
          .element 4 "text:p" [] [
            .element 8 "text:span" [] [.text 9 d1] ] ] ] ] ]

/-- A parent chain as `get_parent_of` sees it: a paragraph, an uppercase
paragraph, the body, the root element, the document node. -/
def chainWithParagraph : List Node :=
  [ .element 4 "text:p" [] [],
    .element 3 "TEXT:P" [] [],
    .element 2 "office:body" [] [],
    .element 1 "office:document-content" [] [],
    .element 0 "#document" [] [] ]

/-- Whether the snapshot node `fid` is one that the loop body of
`prepare_document` leaves untouched: an element with no children, or one
whose first child is a text node with no template fragment. -/
def skippableField (doc : Node) (fid : Nat) : Bool :=
  match findByIdNode fid doc with
  | some (.element _ _ _ []) => true
  | some (.element _ _ _ (.text _ d :: _)) => !(has_jinja_tag d)
  | _ => false

/-- A document whose single field holds plain prose, no brace fragment. -/
def docNoTags : Node :=
  .element 0 "#document" [] [
    .element 1 "office:document-content" [] [
      .element 2 "office:body" [] [
        .element 3 "office:text" [] [
          .element 4 "text:p" [] [
            .element 5 "text:text-input" [] [.text 6 "plain prose"],
            .text 7 "tail" ] ] ] ] ]

/-- The `office:body` element of `docNoTags`. -/
def bodyNoTags : Node :=
  .element 2 "office:body" [] [
    .element 3 "office:text" [] [
      .element 4 "text:p" [] [
        .element 5 "text:text-input" [] [.text 6 "plain prose"],
        .text 7 "tail" ] ] ]

/-- A three-entry input archive: the reserved `mimetype` entry stored
uncompressed, a content part, and an untouched metadata part. -/
def archiveInput : List ZipEntry :=
  [ ⟨"mimetype", "application/vnd.oasis.opendocument.text", .stored⟩,
    ⟨"content.xml", "<office:document-content/>", .deflated⟩,
    ⟨"meta.xml", "<meta/>", .deflated⟩ ]

/-! ## Helper lemmas -/

/-- `str.lower` is the identity on the lowercase paragraph tag. -/
theorem strLower_textp : strLower "text:p" = "text:p" := rfl

/-- A skippable field leaves the state unchanged: the loop body hits either
the `hasChildNodes` guard or the `if not jinja_tags: continue`. -/
theorem process_field_skippable (doc : Node) (k fid : Nat)
    (h : skippableField doc fid = true) :
    process_field ⟨doc, [], k⟩ fid = .ok ⟨doc, [], k⟩ := by
  unfold skippableField at h
  cases hv : findByIdNode fid doc with
  | none => rw [hv] at h; simp at h
  | some n =>
      rw [hv] at h
      cases n with
      | text j d => simp at h
      | element j t a cs =>
          cases cs with
          | nil =>
              simp [process_field, findForest, DocState.forest, findByIdList, hv]
          | cons c rest =>
              cases c with
              | element j2 t2 a2 cs2 => simp at h
              | text j2 d =>
                  simp at h
                  simp [process_field, findForest, DocState.forest, findByIdList, hv, h]

/-- The whole loop is the identity when every snapshot field is skippable. -/
theorem foldProcess_skippable (doc : Node) (k : Nat) (l : List Nat)
    (h : ∀ fid ∈ l, skippableField doc fid = true) :
    foldProcess ⟨doc, [], k⟩ l = .ok ⟨doc, [], k⟩ := by
  induction l with
  | nil => rfl
  | cons fid rest ih =>
      have h1 : skippableField doc fid = true := h fid (by simp)
      calc foldProcess ⟨doc, [], k⟩ (fid :: rest)
          = foldProcess ⟨doc, [], k⟩ rest := by
            simp [foldProcess, process_field_skippable doc k fid h1]
        _ = .ok ⟨doc, [], k⟩ := ih (fun f hf => h f (by simp [hf]))

/-! ## The claims -/

/-- C1, counterexample: for a placeholder whose scope attribute is the
non-empty unrecognized value `foo`, the rewrite succeeds but produces a
tree with no `text:span` element at all — the literal text is inserted as
a bare text node, not wrapped in an inline span as claimed. -/
theorem unrecognized_scope_no_span_counterexample :
    prepare_document (docDescribedScope "foo" "\x7b\x7b x \x7d\x7d")
        = .ok (resDescribedScope "\x7b\x7b x \x7d\x7d")
      ∧ containsTagNode "text:span" (resDescribedScope "\x7b\x7b x \x7d\x7d") = false :=
  ⟨rfl, rfl⟩

/-- C1, amended: for every placeholder whose scope attribute is non-empty
but not one of the three recognized structural tag values, the rewrite
replaces the placeholder in place by a bare text node holding its literal
text (no span), and no error is raised. -/
theorem unrecognized_scope_yields_bare_text (d s : String)
    (hd : d ≠ "")
    (hmem : d ∉ ["text:p", "table:table-row", "table:table-cell"])
    (h : has_jinja_tag s = true) :
    prepare_document (docDescribedScope d s) = .ok (resDescribedScope s) := by
  simp [prepare_document, docDescribedScope, resDescribedScope, content_body,
    getEltsNode, getEltsList, Node.isElementNamed, foldProcess, process_field,
    findForest, DocState.forest, findByIdList, findByIdNode, h, getAttribute,
    replaceNodeState, replaceForest, replaceInNode, replaceInList,
    create_text_span_node, create_text_node, Node.nid, Node.maxId, maxIdList,
    DocState.bump, hd, hmem]

/-- C1, witness for the amended theorem at scope value `foo`. -/
theorem unrecognized_scope_yields_bare_text_witness :
    ("foo" ≠ "")
      ∧ ("foo" ∉ ["text:p", "table:table-row", "table:table-cell"])
      ∧ has_jinja_tag "\x7b\x7b name \x7d\x7d" = true
      ∧ prepare_document (docDescribedScope "foo" "\x7b\x7b name \x7d\x7d")
          = .ok (resDescribedScope "\x7b\x7b name \x7d\x7d") :=
  ⟨by decide, by decide, by decide,
    unrecognized_scope_yields_bare_text "foo" "\x7b\x7b name \x7d\x7d"
      (by decide) (by decide) (by decide)⟩

/-- C2: for a placeholder with the recognized structural scope
`table:table-row` and no enclosing table row, the rewrite does not fall
back to a bare text node: `get_parent_of` walks past the document root and
raises `AttributeError`, the exception aborts the whole scan, and the
remaining placeholder (a default-scoped field later in the snapshot) is
never processed. -/
theorem structural_scope_without_ancestor_raises :
    prepare_document docRowScopeNoRow = .error .attributeError := rfl

/-- C3: `get_parent_of` returns the nearest ancestor whose lowercased name
equals the requested (lowercase) name — matching an uppercase ancestor
once the nearest paragraph is dropped from the chain — but when no
ancestor matches it does not return none: it runs past the tree root and
raises `AttributeError`, contradicting its own docstring. -/
theorem get_parent_of_first_match_and_root_crash :
    get_parent_of chainWithParagraph "text:p" = .ok (.element 4 "text:p" [] [])
      ∧ get_parent_of (chainWithParagraph.drop 1) "text:p"
          = .ok (.element 3 "TEXT:P" [] [])
      ∧ get_parent_of chainWithParagraph "table:table-row"
          = .error .attributeError :=
  ⟨rfl, rfl, rfl⟩

/-- C4: for every placeholder with no scope attribute whose literal text
contains a brace-delimited fragment, the rewrite puts a `text:span` whose
sole child is a text node holding exactly the literal text at the
placeholder's former position between its siblings, and removes the
placeholder. -/
theorem default_scope_replaces_field_with_span (s a b : String)
    (h : has_jinja_tag s = true) :
    prepare_document (docDefaultScope s a b) = .ok (resDefaultScope s a b) := by
  simp [prepare_document, docDefaultScope, resDefaultScope, content_body,
    getEltsNode, getEltsList, Node.isElementNamed, foldProcess, process_field,
    findForest, DocState.forest, findByIdList, findByIdNode, h, getAttribute,
    replaceNodeState, replaceForest, replaceInNode, replaceInList,
    create_text_span_node, create_text_node, Node.nid, Node.maxId, maxIdList,
    DocState.bump]

/-- C4, witness at the spec's example text. -/
theorem default_scope_replaces_field_with_span_witness :
    has_jinja_tag "\x7b\x7b name \x7d\x7d" = true
      ∧ prepare_document (docDefaultScope "\x7b\x7b name \x7d\x7d" "A" "B")
          = .ok (resDefaultScope "\x7b\x7b name \x7d\x7d" "A" "B") :=
  ⟨by decide,
    default_scope_replaces_field_with_span "\x7b\x7b name \x7d\x7d" "A" "B" (by decide)⟩

/-- C5: for a paragraph-scoped placeholder whose nearest enclosing
paragraph is `P`, the rewrite removes the entire `P` element from `P`'s
parent and puts a single bare text node with the placeholder's literal
text at `P`'s former position; `P`'s other children (a text node and a
span) do not survive anywhere in the resulting tree. -/
theorem paragraph_scope_replaces_whole_paragraph (s u v a c : String)
    (h : has_jinja_tag s = true) :
    prepare_document (docParagraphScope s u v a c) = .ok (resParagraphScope s u v) := by
  simp [prepare_document, docParagraphScope, resParagraphScope, content_body,
    getEltsNode, getEltsList, Node.isElementNamed, foldProcess, process_field,
    findForest, DocState.forest, findByIdList, findByIdNode, h, getAttribute,
    replaceNodeState, replaceForest, replaceInNode, replaceInList,
    create_text_span_node, create_text_node, Node.nid, Node.maxId, maxIdList,
    DocState.bump, ancestorsForest, ancestorsList, ancestorsNode, get_parent_of,
    Node.nodeName, strLower_textp]

/-- C5, witness. -/
theorem paragraph_scope_replaces_whole_paragraph_witness :
    has_jinja_tag "\x7b\x7b name \x7d\x7d" = true
      ∧ prepare_document (docParagraphScope "\x7b\x7b name \x7d\x7d" "U" "V" "other text" "other span")
          = .ok (resParagraphScope "\x7b\x7b name \x7d\x7d" "U" "V") :=
  ⟨by decide,
    paragraph_scope_replaces_whole_paragraph "\x7b\x7b name \x7d\x7d" "U" "V"
      "other text" "other span" (by decide)⟩

/-- C6: on an archive whose `mimetype` entry is stored uncompressed, the
output keeps every entry name in order and keeps the non-content entries'
bytes, but the `mimetype` entry is written deflated — its uncompressed
storage mode is not preserved (the Python ≥ 2.7 branch passes
`ZIP_DEFLATED` for every entry, and the saved `mimetype` bytes are never
used). -/
theorem render_template_recompresses_mimetype :
    (render_template true id archiveInput).map ZipEntry.filename
        = archiveInput.map ZipEntry.filename
      ∧ (render_template true id archiveInput)[2]?
          = some ⟨"meta.xml", "<meta/>", .deflated⟩
      ∧ archiveInput[0]?
          = some ⟨"mimetype", "application/vnd.oasis.opendocument.text", .stored⟩
      ∧ (render_template true id archiveInput)[0]?
          = some ⟨"mimetype", "application/vnd.oasis.opendocument.text", .deflated⟩
      ∧ CompressType.deflated ≠ CompressType.stored := by
  refine ⟨rfl, rfl, rfl, rfl, by decide⟩

/-- C7: every chain of calls and attribute accesses on an
`UndefinedSilently` value again yields an `UndefinedSilently` value and
never an error, its string form is empty, and rendering
`Hello {{ name }}` against bindings lacking `name` yields `Hello `. -/
theorem undefined_chain_renders_empty (ops : List ChainOp) :
    applyChain .undefinedSilently ops = .ok .undefinedSilently
      ∧ pyStr .undefinedSilently = ""
      ∧ renderParts [("other", .str "v")] [.lit "Hello ", .var "name"] = "Hello " := by
  refine ⟨?_, rfl, rfl⟩
  induction ops with
  | nil => rfl
  | cons op rest ih => cases op <;> simpa [applyChain, applyOp, return_new] using ih

/-- C7, witness at a concrete chain (a call, an attribute access, another
call). -/
theorem undefined_chain_renders_empty_witness :
    applyChain .undefinedSilently [.call, .getattr "strftime", .call]
        = .ok .undefinedSilently :=
  (undefined_chain_renders_empty [.call, .getattr "strftime", .call]).1

/-- C8: a placeholder whose literal text has no brace-delimited fragment is
left untouched, so on any document all of whose snapshot fields are such
placeholders (or childless), and in particular on any document with no
placeholder at all (the hypothesis then holds vacuously), the rewrite
returns the tree unchanged. -/
theorem rewrite_noop_without_template_tags (doc body : Node)
    (hbody : content_body doc = some body)
    (hskip : ∀ fid ∈ (getEltsNode "text:text-input" body).map Node.nid,
      skippableField doc fid = true) :
    prepare_document doc = .ok doc := by
  have hfold := foldProcess_skippable doc (doc.maxId + 1)
    ((getEltsNode "text:text-input" body).map Node.nid) hskip
  unfold prepare_document
  rw [hbody]
  simp only [hfold]

/-- C8, witness on a document whose single field holds plain prose. -/
theorem rewrite_noop_without_template_tags_witness :
    content_body docNoTags = some bodyNoTags
      ∧ (∀ fid ∈ (getEltsNode "text:text-input" bodyNoTags).map Node.nid,
          skippableField docNoTags fid = true)
      ∧ prepare_document docNoTags = .ok docNoTags :=
  ⟨rfl, by decide,
    rewrite_noop_without_template_tags docNoTags bodyNoTags rfl (by decide)⟩

/-- C9, counterexample: on `-7` the filter yields `-0007`, which is not the
text representation left-padded with `0` characters (`000-7`): `zfill`
moves the sign in front of the padding. -/
theorem pad_sign_counterexample :
    pad_string (.int (-7)) 5 = "-0007"
      ∧ pad_string (.int (-7)) 5 ≠ "000" ++ "-7" := by
  refine ⟨rfl, by decide⟩

/-- C9, amended: `pad` converts its argument to its text representation and
fills it with `0` characters up to the requested width (left-padding when
the text does not start with a sign; a leading sign stays in front of the
zeros), never truncating: the result's length is the maximum of the width
and the text's length, `pad 7` is `00007`, `pad 123456` is `123456`, and
`pad (-7)` is `-0007`. -/
theorem pad_fills_to_width (s : String) (w : Nat)
    (h1 : s.toList.head? ≠ some '+') (h2 : s.toList.head? ≠ some '-') :
    pad_string (.str s) w = ⟨List.replicate (w - s.length) '0' ++ s.toList⟩
      ∧ (pad_string (.str s) w).length = max w s.length
      ∧ pad_string (.int 7) 5 = "00007"
      ∧ pad_string (.int 123456) 5 = "123456"
      ∧ pad_string (.int (-7)) 5 = "-0007" := by
  have key : pad_string (.str s) w = ⟨List.replicate (w - s.length) '0' ++ s.toList⟩ := by
    cases s with
    | mk data =>
        cases data with
        | nil => simp [pad_string, pyStr, zfill, String.length, String.toList]
        | cons c cs =>
            have hc : ¬(c = '+' ∨ c = '-') := by
              rintro (rfl | rfl) <;> simp [String.toList] at h1 h2
            simp [pad_string, pyStr, zfill, String.toList, hc]
  refine ⟨key, ?_, rfl, rfl, rfl⟩
  rw [key]
  cases s with
  | mk data =>
      simp [String.length, String.toList]
      omega

/-- C9, witness for the amended theorem at the sign-free text `ab`. -/
theorem pad_fills_to_width_witness :
    "ab".toList.head? ≠ some '+'
      ∧ "ab".toList.head? ≠ some '-'
      ∧ pad_string (.str "ab") 5 = "000ab" :=
  ⟨by decide, by decide,
    ((pad_fills_to_width "ab" 5 (by decide) (by decide)).1).trans (by decide)⟩

/-- C10: when a placeholder has two text children, the rewrite takes the
literal text exclusively from the first child: the result holds the first
child's data and is the same whatever the second child's data was, which
therefore never appears in the rewritten tree. -/
theorem field_text_from_first_child_only (d1 d2 : String)
    (h : has_jinja_tag d1 = true) :
    prepare_document (docTwoChildren d1 d2) = .ok (resTwoChildren d1) := by
  simp [prepare_document, docTwoChildren, resTwoChildren, content_body,
    getEltsNode, getEltsList, Node.isElementNamed, foldProcess, process_field,
    findForest, DocState.forest, findByIdList, findByIdNode, h, getAttribute,
    replaceNodeState, replaceForest, replaceInNode, replaceInList,
    create_text_span_node, create_text_node, Node.nid, Node.maxId, maxIdList,
    DocState.bump]

/-- C10, witness: the second child's `DISCARDED` never shows up. -/
theorem field_text_from_first_child_only_witness :
    has_jinja_tag "\x7b\x7b name \x7d\x7d" = true
      ∧ prepare_document (docTwoChildren "\x7b\x7b name \x7d\x7d" "DISCARDED")
          = .ok (resTwoChildren "\x7b\x7b name \x7d\x7d") :=
  ⟨by decide,
    field_text_from_first_child_only "\x7b\x7b name \x7d\x7d" "DISCARDED" (by decide)⟩

end Secretary
